import Mathlib

/-!
Verification of the `AlignmentCRF` facade and the non-monotone alignment
oracle from `synjax/_src/alignment_simple.py`.

Modelling conventions:
* Float tensors are modelled as exact rationals (`ℚ`); a batched tensor of
  shape `[b, r, c]` is a function `Fin b → Fin r → Fin c → ℚ`.
* `Int32` length vectors are modelled as `Fin b → ℤ`.
* Python exceptions are modelled with `Except`: `ValueError` raised in
  `__init__` becomes `SynjaxError.configurationError`, `NotImplementedError`
  raised by unsupported operations becomes `SynjaxError.unsupportedOperation`,
  and runtime type failures (a non-array passed where a float array is
  required) become `SynjaxError.typeError`.
* The `INF` constant of `synjax._src.constants` is not under `src/`; following
  the spec's description of the oracle (cells are replaced by
  "negative-infinity" / "positive-infinity"), masked scores live in
  `WithBot (WithTop ℚ)` with `⊥` for `-INF` and `⊤` for `+INF`.
* The external matching solver (`scipy.optimize.linear_sum_assignment`,
  `maximize=True`) is a black box: it is modelled as a permutation-valued
  argument, and theorems about `argmax` assume that the supplied permutation
  maximizes the total masked weight, exactly the solver's contract.
-/

namespace Synjax

/-- A batched rational tensor of shape `[b, r, c]`, the model of a
`Float[Array, "*batch row col"]` with one batch axis. -/
abbrev Tensor3 (b r c : ℕ) : Type := Fin b → Fin r → Fin c → ℚ

/-- Extended rationals: rational scores together with `⊥` (the `-INF`
masking value) and `⊤` (the `+INF` forced-diagonal value). -/
abbrev XRat : Type := WithBot (WithTop ℚ)

/-- Errors surfaced by the facade.  `configurationError` models `ValueError`
raised at construction, `unsupportedOperation` models `NotImplementedError`
raised by a call on the non-monotone regime, and `typeError` models a runtime
failure when a value of the wrong type reaches a typed array argument. -/
inductive SynjaxError where
  | configurationError (msg : String)
  | unsupportedOperation (msg : String)
  | typeError (msg : String)
deriving DecidableEq

/-- The three alignment-type tags accepted by `AlignmentCRF.__init__`. -/
inductive AlignmentType where
  | monotone_one_to_many
  | monotone_many_to_many
  | non_monotone_one_to_one
deriving DecidableEq

/-- The constructor arguments the facade passes to
`GeneralMonotoneAlignmentCRF`. -/
structure DelegateArgs (b r c : ℕ) where
  log_potentials_horizontal : Tensor3 b r c × Tensor3 b r c
  log_potentials_vertical : Option (Tensor3 b r c)
  lengths_rows : Option (Fin b → ℤ)
  lengths_cols : Option (Fin b → ℤ)

/-- Modelled from the spec: the delegate `GeneralMonotoneAlignmentCRF` is an
external collaborator (spec §1, §6) whose internals are out of scope.  It is
modelled as the argument record the facade built it from, together with one
opaque total function per operation of its interface (spec §6).  Since the
delegate object is opaque, `cross_entropy` / `kl_divergence` receive the other
operand's delegate represented by its argument record. -/
structure Delegate (b r c : ℕ) where
  args : DelegateArgs b r c
  sampleFn : ℕ → Tensor3 b r c
  normalizeLogProbsFn : (Fin b → ℚ) → Fin b → ℚ
  logProbFn : Tensor3 b r c → Fin b → ℚ
  unnormalizedLogProbFn : Tensor3 b r c → Fin b → ℚ
  logPartitionFn : Fin b → ℚ
  marginalsFn : Tensor3 b r c
  marginalsTemplateFn : Tensor3 b r c
  argmaxFn : Tensor3 b r c
  topkFn : (k : ℕ) → (Fin k → Tensor3 b r c) × (Fin k → Fin b → ℚ)
  entropyFn : Fin b → ℚ
  crossEntropyFn : Option (DelegateArgs b r c) → Fin b → ℚ
  klDivergenceFn : Option (DelegateArgs b r c) → Fin b → ℚ

/-- The fields of an `AlignmentCRF` instance: the stored log-potentials, the
stored per-batch-element lengths, the optional delegate, and the tag. -/
structure AlignmentCRF (b r c : ℕ) where
  _log_potentials : Tensor3 b r c
  _lengths : Fin b → ℤ
  _dist : Option (Delegate b r c)
  alignment_type : AlignmentType

variable {b r c n : ℕ}

/-- `AlignmentCRF.__init__`.  `mkDelegate` is the external
`GeneralMonotoneAlignmentCRF` constructor, passed in as a black box. -/
def AlignmentCRF.init (mkDelegate : DelegateArgs b r c → Delegate b r c)
    (log_potentials : Tensor3 b r c)
    (lengths_rows : Option (Fin b → ℤ))
    (lengths_cols : Option (Fin b → ℤ))
    (alignment_type : AlignmentType) :
    Except SynjaxError (AlignmentCRF b r c) :=
  if lengths_cols.isNone ∧ lengths_rows.isNone ∧
      alignment_type = .monotone_one_to_many ∧ c ≤ r then
    .error (.configurationError
      "This is a useless distribution because there is less than two alignment possible.")
  else
    let lengths : Fin b → ℤ :=
      match lengths_rows with
      | some lr => lr
      | none => fun _ => (c : ℤ)
    match alignment_type with
    | .monotone_one_to_many =>
        .ok ⟨log_potentials, lengths,
             some (mkDelegate ⟨(log_potentials, log_potentials), none,
                               lengths_rows, lengths_cols⟩),
             .monotone_one_to_many⟩
    | .monotone_many_to_many =>
        .ok ⟨log_potentials, lengths,
             some (mkDelegate ⟨(log_potentials, log_potentials),
                               some log_potentials,
                               lengths_rows, lengths_cols⟩),
             .monotone_many_to_many⟩
    | .non_monotone_one_to_one =>
        match lengths_cols with
        | some _ =>
            .error (.configurationError
              "Non-monotone alignment requires only lengths_rows.")
        | none =>
            if c ≠ r then
              .error (.configurationError
                "Non-monotone alignment requires square matrix.")
            else
              .ok ⟨log_potentials, lengths, none, .non_monotone_one_to_one⟩

/-- The masked log-potentials built inside
`_jax_non_monotone_align_callback`: first every cell outside the valid
`length × length` block is replaced by `-INF` (`⊥`), then every diagonal cell
`(j, j)` with `j ≥ length` is overridden to `+INF` (`⊤`). -/
def maskedPotentials (lp : Fin n → Fin n → ℚ) (L : ℤ) :
    Fin n → Fin n → XRat := fun i j =>
  if L ≤ (j : ℤ) ∧ i = j then ⊤
  else if (i : ℤ) < L ∧ (j : ℤ) < L then ((lp i j : WithTop ℚ) : XRat)
  else ⊥

/-- Total masked weight of the assignment `σ`. -/
def matchWeight (lp : Fin n → Fin n → ℚ) (L : ℤ) (σ : Equiv.Perm (Fin n)) :
    XRat :=
  ∑ i, maskedPotentials lp L i (σ i)

/-- The contract of the external matching oracle
(`scipy.optimize.linear_sum_assignment` with `maximize=True`): the returned
permutation maximizes the total masked weight. -/
def IsMaxWeightMatching (lp : Fin n → Fin n → ℚ) (L : ℤ)
    (σ : Equiv.Perm (Fin n)) : Prop :=
  ∀ τ : Equiv.Perm (Fin n), matchWeight lp L τ ≤ matchWeight lp L σ

/-- One batch element of `_jax_non_monotone_align_callback`'s forward value:
the solver's permutation materialized as a 0/1 matrix
(`one_hot(i) * one_hot(j)` summed), multiplied by the validity mask
(`alignments * mask`). -/
def nonMonotoneAlignElement (lp : Fin n → Fin n → ℚ) (L : ℤ)
    (σ : Equiv.Perm (Fin n)) : Fin n → Fin n → ℚ := fun i j =>
  (if σ i = j then 1 else 0) *
    (if (i : ℤ) < L ∧ (j : ℤ) < L then 1 else 0)

/-- `_jax_non_monotone_align_callback` under `jax.custom_gradient`: the pair
of the forward value (batched over `b`) and the backward rule
`lambda g: (jnp.zeros_like(log_potentials), None)`.  The external solver is
the `solver` argument, one permutation per batch element. -/
def jax_non_monotone_align_callback (log_potentials : Tensor3 b n n)
    (lenghts : Fin b → ℤ) (solver : Fin b → Equiv.Perm (Fin n)) :
    Tensor3 b n n × (Tensor3 b n n → Tensor3 b n n × Option Unit) :=
  (fun bi => nonMonotoneAlignElement (log_potentials bi) (lenghts bi)
      (solver bi),
   fun _g => (fun _ _ _ => (0 : ℚ), none))

/-- `AlignmentCRF.sample`. -/
def AlignmentCRF.sample (d : AlignmentCRF b r c) (key : ℕ) :
    Except SynjaxError (Tensor3 b r c) :=
  match d.alignment_type with
  | .non_monotone_one_to_one =>
      .error (.unsupportedOperation
        "Non-monotone distribution doesn't support sampling.\nInstead, you can try perturb-and-map by injecting the noise.")
  | _ =>
      match d._dist with
      | some dist => .ok (dist.sampleFn key)
      | none => .error (.typeError "NoneType has no attribute sample")

/-- `AlignmentCRF.normalize_log_probs`. -/
def AlignmentCRF.normalize_log_probs (d : AlignmentCRF b r c)
    (scores : Fin b → ℚ) : Except SynjaxError (Fin b → ℚ) :=
  match d.alignment_type with
  | .non_monotone_one_to_one =>
      .error (.unsupportedOperation
        "Non-monotone distribution doesn't support normalization.")
  | _ =>
      match d._dist with
      | some dist => .ok (dist.normalizeLogProbsFn scores)
      | none => .error (.typeError "NoneType has no attribute normalize_log_probs")

/-- `AlignmentCRF.log_prob`. -/
def AlignmentCRF.log_prob (d : AlignmentCRF b r c) (event : Tensor3 b r c) :
    Except SynjaxError (Fin b → ℚ) :=
  match d.alignment_type with
  | .non_monotone_one_to_one =>
      .error (.unsupportedOperation
        "Non-monotone alignment doesn't support normalized log-probs.")
  | _ =>
      match d._dist with
      | some dist => .ok (dist.logProbFn event)
      | none => .error (.typeError "NoneType has no attribute log_prob")

/-- `AlignmentCRF.unnormalized_log_prob` on a float-array event.  In the
non-monotone regime this is `jnp.einsum("...ij,...ij->...", event,
self._log_potentials)`. -/
def AlignmentCRF.unnormalized_log_prob (d : AlignmentCRF b r c)
    (event : Tensor3 b r c) : Except SynjaxError (Fin b → ℚ) :=
  match d.alignment_type with
  | .non_monotone_one_to_one =>
      .ok (fun bi => ∑ i, ∑ j, event bi i j * d._log_potentials bi i j)
  | _ =>
      match d._dist with
      | some dist => .ok (dist.unnormalizedLogProbFn event)
      | none => .error (.typeError "NoneType has no attribute unnormalized_log_prob")

/-- `AlignmentCRF.log_partition`. -/
def AlignmentCRF.log_partition (d : AlignmentCRF b r c) :
    Except SynjaxError (Fin b → ℚ) :=
  match d.alignment_type with
  | .non_monotone_one_to_one =>
      .error (.unsupportedOperation
        "Non-monotone alignment doesn't support log-partition.")
  | _ =>
      match d._dist with
      | some dist => .ok dist.logPartitionFn
      | none => .error (.typeError "NoneType has no attribute log_partition")

/-- `AlignmentCRF.marginals_for_template_variables`. -/
def AlignmentCRF.marginals_for_template_variables (d : AlignmentCRF b r c) :
    Except SynjaxError (Tensor3 b r c) :=
  match d.alignment_type with
  | .non_monotone_one_to_one =>
      .error (.unsupportedOperation
        "Non-monotone alignment doesn't support marginals.")
  | _ =>
      match d._dist with
      | some dist => .ok dist.marginalsTemplateFn
      | none => .error (.typeError "NoneType has no attribute marginals_for_template_variables")

/-- `AlignmentCRF.marginals`. -/
def AlignmentCRF.marginals (d : AlignmentCRF b r c) :
    Except SynjaxError (Tensor3 b r c) :=
  match d.alignment_type with
  | .non_monotone_one_to_one =>
      .error (.unsupportedOperation
        "Non-monotone alignment doesn't support marginals.")
  | _ =>
      match d._dist with
      | some dist => .ok dist.marginalsFn
      | none => .error (.typeError "NoneType has no attribute marginals")

/-- `AlignmentCRF.argmax`.  Non-monotone instances are square by
construction, so the method is stated on square shapes; `solver` stands for
the external matching oracle, one permutation per batch element. -/
def AlignmentCRF.argmax (d : AlignmentCRF b n n)
    (solver : Fin b → Equiv.Perm (Fin n)) :
    Except SynjaxError (Tensor3 b n n) :=
  match d.alignment_type with
  | .non_monotone_one_to_one =>
      .ok (jax_non_monotone_align_callback d._log_potentials d._lengths
             solver).1
  | _ =>
      match d._dist with
      | some dist => .ok dist.argmaxFn
      | none => .error (.typeError "NoneType has no attribute argmax")

/-- The Python value bound to `event` inside `argmax_and_max`: either a float
array, or — as the code actually builds it — the tuple
`(self.argmax(**kwargs), self)`.  The tuple's second component (the
distribution object itself) is not an array, which is all the model needs, so
only the array component is carried. -/
inductive PyEvent (b r c : ℕ) where
  | arr (m : Tensor3 b r c)
  | tupleWithSelf (m : Tensor3 b r c)

/-- `unnormalized_log_prob` as called with a dynamically typed argument.  The
method's `@typed` annotation declares `event: Float[Array, "*b n m"]`, so a
tuple `(array, AlignmentCRF)` is rejected; even with the checker disabled,
`jnp.einsum` (non-monotone) or the delegate (monotone) cannot convert the
tuple to an array.  Either way the call raises instead of returning. -/
def AlignmentCRF.unnormalized_log_prob_dyn (d : AlignmentCRF b r c)
    (event : PyEvent b r c) : Except SynjaxError (Fin b → ℚ) :=
  match event with
  | .arr m => d.unnormalized_log_prob m
  | .tupleWithSelf _ =>
      .error (.typeError
        "unnormalized_log_prob: event must be a float array, got a tuple")

/-- `AlignmentCRF.argmax_and_max` exactly as written in the source:
`event = self.argmax(**kwargs), self` binds `event` to the TUPLE
`(argmax_result, self)`, and that tuple is what is returned as the first
component and passed to `unnormalized_log_prob`. -/
def AlignmentCRF.argmax_and_max (d : AlignmentCRF b n n)
    (solver : Fin b → Equiv.Perm (Fin n)) :
    Except SynjaxError (PyEvent b n n × (Fin b → ℚ)) := do
  let am ← d.argmax solver
  let event : PyEvent b n n := .tupleWithSelf am
  let score ← d.unnormalized_log_prob_dyn event
  return (event, score)

/-- `AlignmentCRF.top_k`. -/
def AlignmentCRF.top_k (d : AlignmentCRF b r c) (k : ℕ) :
    Except SynjaxError ((Fin k → Tensor3 b r c) × (Fin k → Fin b → ℚ)) :=
  match d.alignment_type with
  | .non_monotone_one_to_one =>
      .error (.unsupportedOperation
        "Non-monotone alignment doesn't support top-k.")
  | _ =>
      match d._dist with
      | some dist => .ok (dist.topkFn k)
      | none => .error (.typeError "NoneType has no attribute top_k")

/-- `AlignmentCRF.entropy`. -/
def AlignmentCRF.entropy (d : AlignmentCRF b r c) :
    Except SynjaxError (Fin b → ℚ) :=
  match d.alignment_type with
  | .non_monotone_one_to_one =>
      .error (.unsupportedOperation
        "Non-monotone alignment doesn't support entropy.")
  | _ =>
      match d._dist with
      | some dist => .ok dist.entropyFn
      | none => .error (.typeError "NoneType has no attribute entropy")

/-- `AlignmentCRF.cross_entropy`; the monotone branch forwards
`other._dist` (represented by its argument record) to the delegate. -/
def AlignmentCRF.cross_entropy (d other : AlignmentCRF b r c) :
    Except SynjaxError (Fin b → ℚ) :=
  match d.alignment_type with
  | .non_monotone_one_to_one =>
      .error (.unsupportedOperation
        "Non-monotone alignment doesn't support cross-entropy.")
  | _ =>
      match d._dist with
      | some dist => .ok (dist.crossEntropyFn (other._dist.map Delegate.args))
      | none => .error (.typeError "NoneType has no attribute cross_entropy")

/-- `AlignmentCRF.kl_divergence`; the monotone branch forwards
`other._dist` (represented by its argument record) to the delegate. -/
def AlignmentCRF.kl_divergence (d other : AlignmentCRF b r c) :
    Except SynjaxError (Fin b → ℚ) :=
  match d.alignment_type with
  | .non_monotone_one_to_one =>
      .error (.unsupportedOperation
        "Non-monotone alignment doesn't support KL divergence.")
  | _ =>
      match d._dist with
      | some dist => .ok (dist.klDivergenceFn (other._dist.map Delegate.args))
      | none => .error (.typeError "NoneType has no attribute kl_divergence")

/-! ### Helper lemmas about masked weights -/

/-- A sum in `XRat` with one `⊥` term is `⊥`. -/
lemma sum_eq_bot_of_mem {ι : Type _} {s : Finset ι} {f : ι → XRat} {i : ι}
    (hi : i ∈ s) (h : f i = ⊥) : ∑ x ∈ s, f x = ⊥ :=
  WithBot.sum_eq_bot_iff.mpr ⟨i, hi, h⟩

/-- A sum in `XRat` with no `⊥` term is not `⊥`. -/
lemma sum_ne_bot {ι : Type _} {s : Finset ι} {f : ι → XRat}
    (h : ∀ i ∈ s, f i ≠ ⊥) : ∑ x ∈ s, f x ≠ ⊥ := by
  intro hbot
  obtain ⟨i, hi, hfi⟩ := WithBot.sum_eq_bot_iff.mp hbot
  exact h i hi hfi

/-- Every diagonal cell of the masked potentials is non-`⊥`: below the valid
length it keeps its finite score, at or beyond the length it is forced to
`⊤`. -/
lemma maskedPotentials_diag_ne_bot (lp : Fin n → Fin n → ℚ) (L : ℤ)
    (i : Fin n) : maskedPotentials lp L i i ≠ ⊥ := by
  unfold maskedPotentials
  split_ifs with h1 h2
  · simp
  · exact WithBot.coe_ne_bot
  · rcases lt_or_le ((i : ℤ)) L with h | h
    · exact absurd ⟨h, h⟩ h2
    · exact absurd ⟨h, rfl⟩ h1

/-- The identity permutation always has non-`⊥` masked weight. -/
lemma matchWeight_one_ne_bot (lp : Fin n → Fin n → ℚ) (L : ℤ) :
    matchWeight lp L 1 ≠ ⊥ := by
  unfold matchWeight
  refine sum_ne_bot fun i _ => ?_
  simpa using maskedPotentials_diag_ne_bot lp L i

/-- Every cell picked by a maximum-weight matching is non-`⊥`: otherwise its
total weight would be `⊥`, strictly below the identity matching's weight. -/
lemma maximizer_cell_ne_bot {lp : Fin n → Fin n → ℚ} {L : ℤ}
    {σ : Equiv.Perm (Fin n)} (hσ : IsMaxWeightMatching lp L σ) (i : Fin n) :
    maskedPotentials lp L i (σ i) ≠ ⊥ := by
  intro hbot
  have hw : matchWeight lp L σ = ⊥ :=
    sum_eq_bot_of_mem (Finset.mem_univ i) hbot
  have h1 : matchWeight lp L 1 ≤ (⊥ : XRat) := hw ▸ hσ 1
  exact matchWeight_one_ne_bot lp L (le_bot_iff.mp h1)

/-- Structure of a maximum-weight matching of the masked potentials: each row
is either a valid row matched to a valid column, or an out-of-range row fixed
on the forced diagonal. -/
lemma maximizer_cases {lp : Fin n → Fin n → ℚ} {L : ℤ}
    {σ : Equiv.Perm (Fin n)} (hσ : IsMaxWeightMatching lp L σ) (i : Fin n) :
    ((i : ℤ) < L ∧ ((σ i : Fin n) : ℤ) < L) ∨ (σ i = i ∧ L ≤ (i : ℤ)) := by
  have h := maximizer_cell_ne_bot hσ i
  unfold maskedPotentials at h
  split_ifs at h with h1 h2
  · right
    refine ⟨h1.2.symm, ?_⟩
    rw [h1.2]
    exact h1.1
  · exact Or.inl h2
  · exact absurd rfl h

/-- A maximum-weight matching sends valid rows to valid columns. -/
lemma maximizer_maps_valid {lp : Fin n → Fin n → ℚ} {L : ℤ}
    {σ : Equiv.Perm (Fin n)} (hσ : IsMaxWeightMatching lp L σ) {i : Fin n}
    (hi : (i : ℤ) < L) : ((σ i : Fin n) : ℤ) < L := by
  rcases maximizer_cases hσ i with h | h
  · exact h.2
  · exact absurd hi (not_lt.mpr h.2)

/-- A maximum-weight matching fixes every out-of-range row on the diagonal. -/
lemma maximizer_fixes_invalid {lp : Fin n → Fin n → ℚ} {L : ℤ}
    {σ : Equiv.Perm (Fin n)} (hσ : IsMaxWeightMatching lp L σ) {i : Fin n}
    (hi : L ≤ (i : ℤ)) : σ i = i := by
  rcases maximizer_cases hσ i with h | h
  · exact absurd h.1 (not_lt.mpr hi)
  · exact h.1

/-- A maximum-weight matching pulls valid columns back to valid rows. -/
lemma maximizer_inv_maps_valid {lp : Fin n → Fin n → ℚ} {L : ℤ}
    {σ : Equiv.Perm (Fin n)} (hσ : IsMaxWeightMatching lp L σ) {j : Fin n}
    (hj : (j : ℤ) < L) : ((σ.symm j : Fin n) : ℤ) < L := by
  by_contra hc
  have hfix : σ (σ.symm j) = σ.symm j :=
    maximizer_fixes_invalid hσ (le_of_not_lt hc)
  rw [Equiv.apply_symm_apply] at hfix
  rw [← hfix] at hc
  exact hc hj

/-! ### Constructor inversion -/

/-- What a successful construction stores: the log-potentials unchanged, the
tag unchanged, the row-lengths (defaulting to the column count), and a
delegate exactly for the monotone regimes. -/
lemma init_ok {mkD : DelegateArgs b r c → Delegate b r c} {lp : Tensor3 b r c}
    {lr lc : Option (Fin b → ℤ)} {ty : AlignmentType} {d : AlignmentCRF b r c}
    (h : AlignmentCRF.init mkD lp lr lc ty = .ok d) :
    d._log_potentials = lp ∧ d.alignment_type = ty ∧
    d._lengths = lr.getD (fun _ => (c : ℤ)) ∧
    (d._dist.isSome = true ↔ ty ≠ .non_monotone_one_to_one) := by
  unfold AlignmentCRF.init at h
  split at h
  · exact Except.noConfusion h
  · cases ty with
    | monotone_one_to_many =>
        rw [Except.ok.injEq] at h
        subst h
        exact ⟨rfl, rfl, by cases lr <;> rfl, by simp⟩
    | monotone_many_to_many =>
        rw [Except.ok.injEq] at h
        subst h
        exact ⟨rfl, rfl, by cases lr <;> rfl, by simp⟩
    | non_monotone_one_to_one =>
        cases lc with
        | some l => exact Except.noConfusion h
        | none =>
            dsimp only at h
            split at h
            · exact Except.noConfusion h
            · rw [Except.ok.injEq] at h
              subst h
              exact ⟨rfl, rfl, by cases lr <;> rfl, by simp⟩

/-- A successfully constructed non-monotone instance has no supplied
column-lengths and a square matrix. -/
lemma init_non_monotone_ok_shape {mkD : DelegateArgs b r c → Delegate b r c}
    {lp : Tensor3 b r c} {lr lc : Option (Fin b → ℤ)} {d : AlignmentCRF b r c}
    (h : AlignmentCRF.init mkD lp lr lc .non_monotone_one_to_one = .ok d) :
    lc = none ∧ c = r := by
  unfold AlignmentCRF.init at h
  split at h
  · exact Except.noConfusion h
  · cases lc with
    | some l => exact Except.noConfusion h
    | none =>
        dsimp only at h
        split at h
        · exact Except.noConfusion h
        · rename_i hcr
          exact ⟨rfl, not_ne_iff.mp hcr⟩

/-! ### Properties of one aligned batch element -/

/-- Every entry of the returned alignment matrix is 0 or 1. -/
lemma alignElement_zero_or_one (lp : Fin n → Fin n → ℚ) (L : ℤ)
    (σ : Equiv.Perm (Fin n)) (i j : Fin n) :
    nonMonotoneAlignElement lp L σ i j = 0 ∨
      nonMonotoneAlignElement lp L σ i j = 1 := by
  unfold nonMonotoneAlignElement
  split_ifs <;> norm_num

/-- Characterization of the 1-entries of the returned alignment matrix. -/
lemma alignElement_eq_one_iff (lp : Fin n → Fin n → ℚ) (L : ℤ)
    (σ : Equiv.Perm (Fin n)) (i j : Fin n) :
    nonMonotoneAlignElement lp L σ i j = 1 ↔
      σ i = j ∧ (i : ℤ) < L ∧ (j : ℤ) < L := by
  unfold nonMonotoneAlignElement
  split_ifs with h1 h2 <;> norm_num <;> first | tauto | omega

/-- Entries outside the valid block are zeroed by the final mask. -/
lemma alignElement_eq_zero_of_invalid (lp : Fin n → Fin n → ℚ) (L : ℤ)
    (σ : Equiv.Perm (Fin n)) {i j : Fin n}
    (h : ¬((i : ℤ) < L ∧ (j : ℤ) < L)) :
    nonMonotoneAlignElement lp L σ i j = 0 := by
  unfold nonMonotoneAlignElement
  rw [if_neg h, mul_zero]

/-- For a `Fin 1` grid every permutation is trivially a maximum-weight
matching (there is only one permutation). -/
lemma perm_fin_one_max (lp : Fin 1 → Fin 1 → ℚ) (L : ℤ)
    (σ : Equiv.Perm (Fin 1)) : IsMaxWeightMatching lp L σ := by
  intro τ
  have hτ : τ = σ := Equiv.ext fun x => Subsingleton.elim _ _
  rw [hτ]

/-- The aligned batch element produced from a maximum-weight matching is a
permutation matrix restricted to the valid block: each valid row has exactly
one 1, in a valid column; each valid column has exactly one 1, in a valid
row; everything outside the valid block is 0. -/
lemma alignElement_perm_restricted (lp : Fin n → Fin n → ℚ) (L : ℤ)
    {σ : Equiv.Perm (Fin n)} (hσ : IsMaxWeightMatching lp L σ) :
    (∀ i j, nonMonotoneAlignElement lp L σ i j = 0 ∨
        nonMonotoneAlignElement lp L σ i j = 1) ∧
    (∀ i : Fin n, (i : ℤ) < L →
      (∃! j : Fin n, nonMonotoneAlignElement lp L σ i j = 1) ∧
      ∀ j : Fin n, nonMonotoneAlignElement lp L σ i j = 1 → (j : ℤ) < L) ∧
    (∀ j : Fin n, (j : ℤ) < L →
      (∃! i : Fin n, nonMonotoneAlignElement lp L σ i j = 1) ∧
      ∀ i : Fin n, nonMonotoneAlignElement lp L σ i j = 1 → (i : ℤ) < L) ∧
    (∀ i j : Fin n, L ≤ (i : ℤ) ∨ L ≤ (j : ℤ) →
      nonMonotoneAlignElement lp L σ i j = 0) := by
  refine ⟨alignElement_zero_or_one lp L σ, ?_, ?_, ?_⟩
  · intro i hi
    have hji : ((σ i : Fin n) : ℤ) < L := maximizer_maps_valid hσ hi
    refine ⟨⟨σ i, ?_, ?_⟩, ?_⟩
    · exact (alignElement_eq_one_iff lp L σ i (σ i)).mpr ⟨rfl, hi, hji⟩
    · intro y hy
      exact ((alignElement_eq_one_iff lp L σ i y).mp hy).1.symm
    · intro j hj
      exact ((alignElement_eq_one_iff lp L σ i j).mp hj).2.2
  · intro j hj
    have hij : ((σ.symm j : Fin n) : ℤ) < L := maximizer_inv_maps_valid hσ hj
    refine ⟨⟨σ.symm j, ?_, ?_⟩, ?_⟩
    · exact (alignElement_eq_one_iff lp L σ (σ.symm j) j).mpr
        ⟨Equiv.apply_symm_apply σ j, hij, hj⟩
    · intro y hy
      obtain ⟨hσy, -, -⟩ := (alignElement_eq_one_iff lp L σ y j).mp hy
      exact (Equiv.eq_symm_apply σ).mpr hσy
    · intro i hi
      exact ((alignElement_eq_one_iff lp L σ i j).mp hi).2.1
  · intro i j hij
    refine alignElement_eq_zero_of_invalid lp L σ ?_
    rintro ⟨h1, h2⟩
    rcases hij with h | h
    · exact absurd h1 (not_lt.mpr h)
    · exact absurd h2 (not_lt.mpr h)

/-- With declared length 0 the mask invalidates every cell and the forced
diagonal covers the whole matrix, so a maximum-weight matching must be the
identity (a complete self-match). -/
lemma maximizer_eq_one_of_zero_length (lp : Fin n → Fin n → ℚ)
    {σ : Equiv.Perm (Fin n)} (hσ : IsMaxWeightMatching lp 0 σ) : σ = 1 := by
  refine Equiv.ext fun i => ?_
  rcases maximizer_cases hσ i with h | h
  · exact absurd h.1 (Int.natCast_nonneg _).not_lt
  · simpa using h.1

/-! ### Concrete instances used to exercise the theorems -/

/-- A delegate whose behavior functions are all zero; stands in for the
external delegate constructor when building concrete examples. -/
def zeroDelegate {b r c : ℕ} (args : DelegateArgs b r c) : Delegate b r c :=
  ⟨args,
   fun _ => fun _ _ _ => 0,
   fun _ => fun _ => 0,
   fun _ => fun _ => 0,
   fun _ => fun _ => 0,
   fun _ => 0,
   fun _ _ _ => 0,
   fun _ _ _ => 0,
   fun _ _ _ => 0,
   fun _ => (fun _ _ _ _ => 0, fun _ _ => 0),
   fun _ => 0,
   fun _ _ => 0,
   fun _ _ => 0⟩

/-- A 1-batch, 1×1 non-monotone instance with zero log-potentials and the
default length 1. -/
def dNonMono : AlignmentCRF 1 1 1 :=
  ⟨fun _ _ _ => 0, fun _ => 1, none, .non_monotone_one_to_one⟩

/-- A 1-batch, 1×1 non-monotone instance with declared length 0. -/
def dNonMonoL0 : AlignmentCRF 1 1 1 :=
  ⟨fun _ _ _ => 0, fun _ => 0, none, .non_monotone_one_to_one⟩

/-- The solver for the 1×1 examples: the only permutation of `Fin 1`. -/
def demoSolver : Fin 1 → Equiv.Perm (Fin 1) := fun _ => 1

/-- The alignment matrix `dNonMono.argmax demoSolver` returns. -/
def demoR : Tensor3 1 1 1 := fun _ => nonMonotoneAlignElement (fun _ _ => 0) 1 1

/-- The alignment matrix `dNonMonoL0.argmax demoSolver` returns. -/
def demoR0 : Tensor3 1 1 1 := fun _ => nonMonotoneAlignElement (fun _ _ => 0) 0 1

/-- 2×2 identity-like log-potentials `[[1,0],[0,1]]` in one batch element. -/
def lpDemo2 : Tensor3 1 2 2 := fun _ i j => if i = j then 1 else 0

/-- The 1-batch, 2×2 non-monotone instance built from `lpDemo2`. -/
def dNonMono2 : AlignmentCRF 1 2 2 :=
  ⟨lpDemo2, fun _ => 2, none, .non_monotone_one_to_one⟩

/-- The 1-batch, 2×3 monotone one-to-many instance with zero log-potentials,
no supplied lengths, and the zero delegate. -/
def dMono23 : AlignmentCRF 1 2 3 :=
  ⟨fun _ _ _ => 0, fun _ => 3,
   some (zeroDelegate ⟨((fun _ _ _ => 0), (fun _ _ _ => 0)), none, none, none⟩),
   .monotone_one_to_many⟩

/-! ### Claims -/

/-- C1: FALSIFIED BY THE CODE.  `argmax_and_max` never returns the pair
`(argmax(), unnormalized_log_prob(argmax()))`: the line
`event = self.argmax(**kwargs), self` binds `event` to the tuple
`(argmax_result, self)`, so `unnormalized_log_prob(event)` is called on a
tuple instead of the argmax array and the call raises instead of returning —
for every instance, of every alignment type. -/
theorem claim_C1_argmax_and_max_always_raises (b n : ℕ)
    (d : AlignmentCRF b n n) (solver : Fin b → Equiv.Perm (Fin n)) :
    ∃ e : SynjaxError, d.argmax_and_max solver = .error e := by
  unfold AlignmentCRF.argmax_and_max AlignmentCRF.argmax
  cases hty : d.alignment_type with
  | non_monotone_one_to_one => exact ⟨_, rfl⟩
  | monotone_one_to_many =>
      cases hd : d._dist with
      | some dist => exact ⟨_, rfl⟩
      | none => exact ⟨_, rfl⟩
  | monotone_many_to_many =>
      cases hd : d._dist with
      | some dist => exact ⟨_, rfl⟩
      | none => exact ⟨_, rfl⟩

/-- C2 counterexample: a monotone one-to-many construction with a 2×3
log-potentials tensor (rows < cols, hence rows ≤ cols) and no lengths
SUCCEEDS, contradicting the claim that every `rows <= cols` construction
fails with a ConfigurationError. -/
theorem claim_C2_counterexample :
    (AlignmentCRF.init zeroDelegate ((fun _ _ _ => 0) : Tensor3 1 2 3)
        none none .monotone_one_to_many).toOption.isSome = true := rfl

/-- C2 amended: a monotone one-to-many construction with no lengths fails
with a ConfigurationError exactly when rows ≥ cols (the code checks
`shape[-2] >= shape[-1]`), not rows ≤ cols. -/
theorem claim_C2_amended_degenerate_check (b r c : ℕ)
    (mkD : DelegateArgs b r c → Delegate b r c) (lp : Tensor3 b r c)
    (h : c ≤ r) :
    AlignmentCRF.init mkD lp none none .monotone_one_to_many =
      .error (.configurationError
        "This is a useless distribution because there is less than two alignment possible.") := by
  unfold AlignmentCRF.init
  rw [if_pos]
  exact ⟨rfl, rfl, rfl, h⟩

/-- C2 amended, witness: a square (1×1) monotone one-to-many construction
with no lengths fails with the degenerate-distribution error. -/
theorem claim_C2_amended_witness :
    (1 : ℕ) ≤ 1 ∧
    AlignmentCRF.init zeroDelegate ((fun _ _ _ => 0) : Tensor3 1 1 1)
        none none .monotone_one_to_many =
      .error (.configurationError
        "This is a useless distribution because there is less than two alignment possible.") :=
  ⟨le_refl 1,
   claim_C2_amended_degenerate_check 1 1 1 zeroDelegate (fun _ _ _ => 0)
     (le_refl 1)⟩

/-- C8: the backward rule declared by `jax.custom_gradient` for the
non-monotone argmax returns the all-zero cotangent for the log-potentials and
`None` for the lengths, whatever the incoming cotangent `g` is. -/
theorem claim_C8_zero_gradient (b n : ℕ) (log_potentials : Tensor3 b n n)
    (lenghts : Fin b → ℤ) (solver : Fin b → Equiv.Perm (Fin n))
    (g : Tensor3 b n n) :
    (jax_non_monotone_align_callback log_potentials lenghts solver).2 g =
      (fun _ _ _ => (0 : ℚ), none) := rfl

/-- C3: for every non-monotone instance, assuming the external solver returns
a maximum-weight permutation of the masked potentials, the matrix `argmax()`
returns is a permutation matrix restricted to the declared length of each
batch element: every entry is 0 or 1, each row `i < L` carries exactly one 1
and only in a column `j < L`, each column `j < L` carries exactly one 1 and
only in a row `i < L`, and every entry with `i ≥ L` or `j ≥ L` is 0. -/
theorem claim_C3_argmax_permutation_matrix (b n : ℕ) (d : AlignmentCRF b n n)
    (hty : d.alignment_type = .non_monotone_one_to_one)
    (solver : Fin b → Equiv.Perm (Fin n))
    (hmax : ∀ bi : Fin b,
      IsMaxWeightMatching (d._log_potentials bi) (d._lengths bi) (solver bi))
    (R : Tensor3 b n n) (hR : d.argmax solver = .ok R) (bi : Fin b) :
    (∀ i j : Fin n, R bi i j = 0 ∨ R bi i j = 1) ∧
    (∀ i : Fin n, (i : ℤ) < d._lengths bi →
      (∃! j : Fin n, R bi i j = 1) ∧
      ∀ j : Fin n, R bi i j = 1 → (j : ℤ) < d._lengths bi) ∧
    (∀ j : Fin n, (j : ℤ) < d._lengths bi →
      (∃! i : Fin n, R bi i j = 1) ∧
      ∀ i : Fin n, R bi i j = 1 → (i : ℤ) < d._lengths bi) ∧
    (∀ i j : Fin n, d._lengths bi ≤ (i : ℤ) ∨ d._lengths bi ≤ (j : ℤ) →
      R bi i j = 0) := by
  unfold AlignmentCRF.argmax at hR
  rw [hty] at hR
  injection hR with hR
  subst hR
  exact alignElement_perm_restricted (d._log_potentials bi) (d._lengths bi)
    (hmax bi)

/-- C3 witness: the concrete 1×1 non-monotone instance with default length 1
and the unique solver permutation yields the matrix `[[1]]`. -/
theorem claim_C3_witness :
    dNonMono.argmax demoSolver = .ok demoR ∧ demoR 0 0 0 = 1 := by
  refine ⟨rfl, ?_⟩
  have h := claim_C3_argmax_permutation_matrix 1 1 dNonMono rfl demoSolver
    (fun bi => perm_fin_one_max _ _ _) demoR rfl 0
  have h0 : ((0 : Fin 1) : ℤ) < dNonMono._lengths 0 := by decide
  obtain ⟨⟨j, hj, -⟩, -⟩ := h.2.1 0 h0
  have hj0 : j = 0 := Subsingleton.elim _ _
  rw [hj0] at hj
  exact hj

/-- C10: if a batch element's declared length is 0, the out-of-range diagonal
padding forces any maximum-weight matching to be the identity (a complete
self-match), and the final mask zeroes every entry, so `argmax()` returns the
all-zero matrix for that element (and raises no error: the non-monotone
branch of `argmax` is total). -/
theorem claim_C10_zero_length_all_zero (b n : ℕ) (d : AlignmentCRF b n n)
    (hty : d.alignment_type = .non_monotone_one_to_one)
    (solver : Fin b → Equiv.Perm (Fin n)) (R : Tensor3 b n n)
    (hR : d.argmax solver = .ok R) (bi : Fin b) (hL : d._lengths bi = 0)
    (hmax : IsMaxWeightMatching (d._log_potentials bi) (d._lengths bi)
      (solver bi)) :
    solver bi = 1 ∧ ∀ i j : Fin n, R bi i j = 0 := by
  unfold AlignmentCRF.argmax at hR
  rw [hty] at hR
  injection hR with hR
  subst hR
  rw [hL] at hmax
  refine ⟨maximizer_eq_one_of_zero_length _ hmax, fun i j => ?_⟩
  show nonMonotoneAlignElement (d._log_potentials bi) (d._lengths bi)
    (solver bi) i j = 0
  refine alignElement_eq_zero_of_invalid _ _ _ ?_
  rw [hL]
  rintro ⟨hi, -⟩
  exact absurd hi (Int.natCast_nonneg _).not_lt

/-- C10 witness: the concrete 1×1 non-monotone instance with declared length
0 returns the all-zero matrix and its solver is forced to the identity. -/
theorem claim_C10_witness :
    dNonMonoL0.argmax demoSolver = .ok demoR0 ∧
    demoSolver 0 = 1 ∧ demoR0 0 0 0 = 0 := by
  have h := claim_C10_zero_length_all_zero 1 1 dNonMonoL0 rfl demoSolver
    demoR0 rfl 0 rfl (perm_fin_one_max _ _ _)
  exact ⟨rfl, h.1, h.2 0 0⟩

/-- C4: for every successfully constructed non-monotone instance and every
event of the event shape, `unnormalized_log_prob(event)` returns (without
raising) the batched sum over all cells of `event[i,j] * log_potentials[i,j]`
computed against the ORIGINAL log-potentials passed at construction, not any
length-masked version. -/
theorem claim_C4_unnormalized_log_prob_einsum (b r c : ℕ)
    (mkD : DelegateArgs b r c → Delegate b r c) (lp : Tensor3 b r c)
    (lr lc : Option (Fin b → ℤ)) (d : AlignmentCRF b r c)
    (h : AlignmentCRF.init mkD lp lr lc .non_monotone_one_to_one = .ok d)
    (event : Tensor3 b r c) :
    d.unnormalized_log_prob event =
      .ok (fun bi => ∑ i, ∑ j, event bi i j * lp bi i j) := by
  obtain ⟨hlp, hty, -, -⟩ := init_ok h
  cases d
  dsimp only at hlp hty
  subst hlp
  subst hty
  rfl

/-- C4 witness: with 2×2 log-potentials `[[1,0],[0,1]]` and the identity
event, the unnormalized log-probability is exactly 2. -/
theorem claim_C4_witness :
    AlignmentCRF.init zeroDelegate lpDemo2 none none .non_monotone_one_to_one
      = .ok dNonMono2 ∧
    dNonMono2.unnormalized_log_prob lpDemo2 = .ok (fun _ => 2) := by
  refine ⟨rfl, ?_⟩
  have h := claim_C4_unnormalized_log_prob_einsum 1 2 2 zeroDelegate lpDemo2
    none none dNonMono2 rfl lpDemo2
  rw [h]
  congr 1
  funext bi
  show (∑ i, ∑ j, lpDemo2 bi i j * lpDemo2 bi i j) = 2
  simp [lpDemo2, Fin.sum_univ_two]

/-- C5: on every instance whose alignment type is non-monotone one-to-one,
each of `sample`, `log_prob`, `log_partition`, `marginals`, `top_k`,
`entropy`, `cross_entropy` and `kl_divergence` raises an unsupported-operation
error whose message names the unsupported capability, and never returns. -/
theorem claim_C5_unsupported_operations (b r c : ℕ) (d : AlignmentCRF b r c)
    (hty : d.alignment_type = .non_monotone_one_to_one) (key : ℕ)
    (event : Tensor3 b r c) (k : ℕ) (other : AlignmentCRF b r c) :
    d.sample key = .error (.unsupportedOperation
      "Non-monotone distribution doesn't support sampling.\nInstead, you can try perturb-and-map by injecting the noise.") ∧
    d.log_prob event = .error (.unsupportedOperation
      "Non-monotone alignment doesn't support normalized log-probs.") ∧
    d.log_partition = .error (.unsupportedOperation
      "Non-monotone alignment doesn't support log-partition.") ∧
    d.marginals = .error (.unsupportedOperation
      "Non-monotone alignment doesn't support marginals.") ∧
    d.top_k k = .error (.unsupportedOperation
      "Non-monotone alignment doesn't support top-k.") ∧
    d.entropy = .error (.unsupportedOperation
      "Non-monotone alignment doesn't support entropy.") ∧
    d.cross_entropy other = .error (.unsupportedOperation
      "Non-monotone alignment doesn't support cross-entropy.") ∧
    d.kl_divergence other = .error (.unsupportedOperation
      "Non-monotone alignment doesn't support KL divergence.") := by
  cases d
  dsimp only at hty
  subst hty
  exact ⟨rfl, rfl, rfl, rfl, rfl, rfl, rfl, rfl⟩

/-- C5 witness: the eight unsupported operations all fail on the concrete
1×1 non-monotone instance. -/
theorem claim_C5_witness :
    dNonMono.sample 0 = .error (.unsupportedOperation
      "Non-monotone distribution doesn't support sampling.\nInstead, you can try perturb-and-map by injecting the noise.") ∧
    dNonMono.log_prob (fun _ _ _ => 0) = .error (.unsupportedOperation
      "Non-monotone alignment doesn't support normalized log-probs.") ∧
    dNonMono.log_partition = .error (.unsupportedOperation
      "Non-monotone alignment doesn't support log-partition.") ∧
    dNonMono.marginals = .error (.unsupportedOperation
      "Non-monotone alignment doesn't support marginals.") ∧
    dNonMono.top_k 3 = .error (.unsupportedOperation
      "Non-monotone alignment doesn't support top-k.") ∧
    dNonMono.entropy = .error (.unsupportedOperation
      "Non-monotone alignment doesn't support entropy.") ∧
    dNonMono.cross_entropy dNonMono = .error (.unsupportedOperation
      "Non-monotone alignment doesn't support cross-entropy.") ∧
    dNonMono.kl_divergence dNonMono = .error (.unsupportedOperation
      "Non-monotone alignment doesn't support KL divergence.") :=
  claim_C5_unsupported_operations 1 1 1 dNonMono rfl 0 (fun _ _ _ => 0) 3
    dNonMono

/-- C6: a non-monotone construction succeeds exactly when no column-lengths
are supplied and the matrix is square, and every failure it produces is a
ConfigurationError.  Together: construction fails with a ConfigurationError
iff column-lengths are supplied or rows ≠ cols. -/
theorem claim_C6_non_monotone_construction (b r c : ℕ)
    (mkD : DelegateArgs b r c → Delegate b r c) (lp : Tensor3 b r c)
    (lr lc : Option (Fin b → ℤ)) :
    ((∃ d, AlignmentCRF.init mkD lp lr lc .non_monotone_one_to_one = .ok d) ↔
      lc = none ∧ r = c) ∧
    (∀ e, AlignmentCRF.init mkD lp lr lc .non_monotone_one_to_one = .error e →
      ∃ msg, e = .configurationError msg) := by
  unfold AlignmentCRF.init
  have hcond : ¬(lc.isNone ∧ lr.isNone ∧
      (AlignmentType.non_monotone_one_to_one = .monotone_one_to_many) ∧
      c ≤ r) := by
    rintro ⟨-, -, hbad, -⟩
    exact AlignmentType.noConfusion hbad
  rw [if_neg hcond]
  cases lc with
  | some l =>
      refine ⟨⟨?_, ?_⟩, ?_⟩
      · rintro ⟨d, hd⟩
        exact Except.noConfusion hd
      · rintro ⟨hnone, -⟩
        exact Option.noConfusion hnone
      · intro e he
        rw [Except.error.injEq] at he
        exact ⟨_, he.symm⟩
  | none =>
      dsimp only
      by_cases hcr : c ≠ r
      · rw [if_pos hcr]
        refine ⟨⟨?_, ?_⟩, ?_⟩
        · rintro ⟨d, hd⟩
          exact Except.noConfusion hd
        · rintro ⟨-, hrc⟩
          exact (hcr hrc.symm).elim
        · intro e he
          rw [Except.error.injEq] at he
          exact ⟨_, he.symm⟩
      · rw [if_neg hcr]
        rw [not_ne_iff] at hcr
        refine ⟨⟨?_, ?_⟩, ?_⟩
        · intro hok
          exact ⟨rfl, hcr.symm⟩
        · intro hsq
          exact ⟨_, rfl⟩
        · intro e he
          exact Except.noConfusion he

/-- C7: whenever row-lengths are omitted — for any alignment type that
constructs successfully — the stored length of every batch element is the
COLUMN count of the log-potentials tensor (the size of the last axis). -/
theorem claim_C7_default_lengths_col_count (b r c : ℕ)
    (mkD : DelegateArgs b r c → Delegate b r c) (lp : Tensor3 b r c)
    (lc : Option (Fin b → ℤ)) (ty : AlignmentType) (d : AlignmentCRF b r c)
    (h : AlignmentCRF.init mkD lp none lc ty = .ok d) (bi : Fin b) :
    d._lengths bi = (c : ℤ) := by
  obtain ⟨-, -, hlen, -⟩ := init_ok h
  rw [hlen]
  rfl

/-- C7 witness: a 2×3 monotone one-to-many construction with no lengths
stores the default length 3 (the column count, not the row count 2). -/
theorem claim_C7_witness :
    AlignmentCRF.init zeroDelegate ((fun _ _ _ => 0) : Tensor3 1 2 3)
        none none .monotone_one_to_many = .ok dMono23 ∧
    dMono23._lengths 0 = 3 :=
  ⟨rfl,
   claim_C7_default_lengths_col_count 1 2 3 zeroDelegate (fun _ _ _ => 0)
     none .monotone_one_to_many dMono23 rfl 0⟩

/-- C9: for every successful construction, the delegate field is populated
iff the alignment type is not non-monotone one-to-one.  (The model's
operations are pure: no operation returns a modified instance, so the field
can never change after construction.) -/
theorem claim_C9_delegate_iff_monotone (b r c : ℕ)
    (mkD : DelegateArgs b r c → Delegate b r c) (lp : Tensor3 b r c)
    (lr lc : Option (Fin b → ℤ)) (ty : AlignmentType) (d : AlignmentCRF b r c)
    (h : AlignmentCRF.init mkD lp lr lc ty = .ok d) :
    d._dist.isSome = true ↔ ty ≠ .non_monotone_one_to_one :=
  (init_ok h).2.2.2

/-- C9 witness: the concrete non-monotone construction stores no delegate. -/
theorem claim_C9_witness :
    AlignmentCRF.init zeroDelegate ((fun _ _ _ => 0) : Tensor3 1 1 1)
        none none .non_monotone_one_to_one = .ok dNonMono ∧
    dNonMono._dist.isSome = false := by
  have h := claim_C9_delegate_iff_monotone 1 1 1 zeroDelegate
    (fun _ _ _ => 0) none none .non_monotone_one_to_one dNonMono rfl
  refine ⟨rfl, ?_⟩
  exact Bool.eq_false_iff.mpr fun ht => (h.mp ht) rfl

end Synjax
